import Mathlib

/-!
Verification development for the Talkyard public API documentation
(src/pub-api-2-ai.ts): a shallow embedding of the request and response
types declared there, together with executable models of the executors
that the design document describes (the repository itself contains only
type declarations and pseudocode, not the server code).
-/

namespace TalkyardApi

/-! ## Type aliases (src/pub-api-2-ai.ts lines 75-93) -/

abbrev St := String
abbrev Nr := Int
abbrev Bo := Bool

abbrev ParticipantId := String
abbrev MemberRef := String
abbrev GuestRef := String
abbrev PatRef := String
abbrev PageRef := String
abbrev PostRef := String
abbrev TypeRef := String
abbrev BadgeRef := String
abbrev CategoryRef := String
abbrev CatRef := String
abbrev PageId := String
abbrev PatId := String
abbrev RefId := String
abbrev Ref := String
abbrev PostNr := Int
abbrev WhenMs := Int
abbrev CatId := Int
abbrev PageTypeSt := String
abbrev PageSortOrder := String
abbrev EventSortOrder := String

/-- Unimplemented parts of the API are declared with the Typescript type
undefined, a type with exactly one value (src line 93:
type Unimplemented = undefined). -/
abbrev Unimplemented := Unit

/-- A model of the JSON values exchanged on the wire. -/
inductive Json where
  | null
  | bool (b : Bool)
  | num (n : Int)
  | str (s : String)
  | arr (elems : List Json)
  | obj (fields : List (String × Json))

/-- The keys of a JSON object (empty for non-objects). -/
def Json.keys : Json → List String
  | .obj fields => fields.map Prod.fst
  | _ => []

/-! ## Error and response envelope types (src lines 45-72) -/

/-- ErrCodeMsg (src lines 55-58): the lighter per-item error shape. -/
structure ErrCodeMsg where
  errCode : St
  errMsg : St
deriving Repr, DecidableEq

/-- ResponseError (src lines 51-53): extends a partial ErrCodeMsg with an
optional httpStatusCode; used only in the whole-request error envelope. -/
structure ResponseError where
  errCode : Option St
  errMsg : Option St
  httpStatusCode : Option Nr
deriving Repr, DecidableEq

/-- ApiErrorResponse (src lines 47-49): the uniform error envelope. -/
structure ApiErrorResponse where
  error : ResponseError
deriving Repr, DecidableEq

/-- ApiResponse R = ApiErrorResponse | R (src line 45). -/
inductive ApiResponse (R : Type) where
  | err (e : ApiErrorResponse)
  | ok (r : R)

/-- An optional JSON field: absent when the value is absent. -/
def optField (k : String) (v : Option Json) : List (String × Json) :=
  match v with
  | none => []
  | some j => [(k, j)]

/-- Wire encoding of ErrCodeMsg: exactly the two keys errCode and errMsg. -/
def ErrCodeMsg.toJson (e : ErrCodeMsg) : Json :=
  .obj [("errCode", .str e.errCode), ("errMsg", .str e.errMsg)]

/-- Wire encoding of ResponseError: the optional httpStatusCode, errCode
and errMsg keys. -/
def ResponseError.toJson (e : ResponseError) : Json :=
  .obj (optField "httpStatusCode" (e.httpStatusCode.map .num) ++
        optField "errCode" (e.errCode.map .str) ++
        optField "errMsg" (e.errMsg.map .str))

/-- Wire encoding of the error envelope: one key, error. -/
def ApiErrorResponse.toJson (e : ApiErrorResponse) : Json :=
  .obj [("error", e.error.toJson)]

/-- Wire encoding of an ApiResponse: the error envelope, or the success
payload itself. -/
def encodeApiResponse {R : Type} (encR : R → Json) : ApiResponse R → Json
  | .err e => e.toJson
  | .ok r => encR r

/-- ErrorResult (src lines 70-72): a per-item error inside a success
payload, carrying only an ErrCodeMsg. -/
structure ErrorResult where
  error : ErrCodeMsg
deriving Repr, DecidableEq

/-- Wire encoding of a per-item ErrorResult. -/
def ErrorResult.toJson (e : ErrorResult) : Json :=
  .obj [("error", e.error.toJson)]

/-- Claim C7: every response is either the success payload or the uniform
error envelope, an object with single key error whose object may carry
httpStatusCode; per-item errors (ErrCodeMsg, and ErrorResult wrapping it)
use the lighter shape whose encoding never carries an httpStatusCode key,
while the enclosing request is still encoded as a success payload. -/
theorem apiResponse_error_envelope_shape :
    (∀ {R : Type} (encR : R → Json) (resp : ApiResponse R),
       (∃ e, resp = .err e ∧
          encodeApiResponse encR resp = Json.obj [("error", e.error.toJson)]) ∨
       (∃ r, resp = .ok r ∧ encodeApiResponse encR resp = encR r)) ∧
    (∀ e : ErrCodeMsg,
       (ErrCodeMsg.toJson e).keys = ["errCode", "errMsg"] ∧
       "httpStatusCode" ∉ (ErrCodeMsg.toJson e).keys) ∧
    (∀ e : ErrorResult,
       (ErrorResult.toJson e).keys = ["error"] ∧
       "httpStatusCode" ∉ (ErrorResult.toJson e).keys) := by
  refine ⟨?_, ?_, ?_⟩
  · intro R encR resp
    cases resp with
    | err e => exact Or.inl ⟨e, rfl, rfl⟩
    | ok r => exact Or.inr ⟨r, rfl, rfl⟩
  · intro e
    constructor
    · rfl
    · simp [ErrCodeMsg.toJson, Json.keys]
  · intro e
    constructor
    · rfl
    · simp [ErrorResult.toJson, Json.keys]

/-- Claim C7 witness: the encoding of a concrete per-item error has
exactly the keys errCode and errMsg. -/
theorem apiResponse_error_envelope_shape_witness :
    (ErrCodeMsg.toJson ⟨"TyEPGNF", "Page not found"⟩).keys =
      ["errCode", "errMsg"] :=
  (apiResponse_error_envelope_shape.2.1 ⟨"TyEPGNF", "Page not found"⟩).1

/-! ## Scroll cursors (src lines 698-701, 749-755, 876-879, 904-910) -/

/-- ListResultsScrollCursor (src line 755): declared Unimplemented. -/
abbrev ListResultsScrollCursor := Unimplemented

/-- SearchResultsScrollCursor (src line 910): declared Unimplemented. -/
abbrev SearchResultsScrollCursor := Unimplemented

/-- ListQueryResults (src lines 749-753). -/
structure ListQueryResults (T : Type) where
  origin : String
  thingsFound : Option (List T)
  scrollCursor : Option ListResultsScrollCursor

/-- SearchQueryResults (src lines 904-908). -/
structure SearchQueryResults (T : Type) where
  origin : String
  thingsFound : Option (List T)
  scrollCursor : Option SearchResultsScrollCursor

/-- Modelled from the spec: the server code that would issue a
continuation cursor after returning the first k elements of a listing is
absent from src/ (cursors are declared Unimplemented there); whatever the
server did, the cursor it issues could only be a value of the
Unimplemented cursor type. -/
def cursorAfter (_k : Nat) : ListResultsScrollCursor := ()

/-- Claim C9 counterexample: no resume-position assignment can let the
cursor issued after one returned element resume at position 1 while the
cursor issued after two returned elements resumes at position 2 — the
cursor type (Unimplemented) has a single value, so the two cursors are
the same value and cannot deterministically resume at different places. -/
theorem scrollCursor_resume_impossible :
    ¬ ∃ resumeAt : ListResultsScrollCursor → Nat,
        resumeAt (cursorAfter 1) = 1 ∧ resumeAt (cursorAfter 2) = 2 := by
  rintro ⟨f, h1, h2⟩
  have h : cursorAfter 1 = cursorAfter 2 := rfl
  rw [h] at h1
  omega

/-- Claim C9 (amended): the List and Search response types declare an
optional scrollCursor, but the cursor type is Unimplemented (undefined),
a one-valued type: all cursors are equal, so a response's cursor is
either absent or the single information-free value, and no deterministic
resumption is expressible. -/
theorem scrollCursor_unimplemented :
    (∀ c c2 : ListResultsScrollCursor, c = c2) ∧
    (∀ c c2 : SearchResultsScrollCursor, c = c2) ∧
    (∀ {T : Type} (res : ListQueryResults T),
       res.scrollCursor = none ∨ res.scrollCursor = some (cursorAfter 0)) ∧
    (∀ {T : Type} (res : SearchQueryResults T),
       res.scrollCursor = none ∨ res.scrollCursor = some (cursorAfter 0)) := by
  refine ⟨fun c c2 => rfl, fun c c2 => rfl, ?_, ?_⟩
  · intro T res
    cases h : res.scrollCursor with
    | none => exact Or.inl rfl
    | some c => exact Or.inr rfl
  · intro T res
    cases h : res.scrollCursor with
    | none => exact Or.inl rfl
    | some c => exact Or.inr rfl

/-! ## FindWhat and the Get query (src lines 103-132, 517-603) -/

/-- FindWhat (src lines 103-132): the ten thing kinds Search and List
queries can look for. -/
inductive FindWhat where
  | Events
  | Pages
  | Posts
  | Members
  | Pats
  | Invites
  | EmailsSent
  | Tags
  | Categories
  | Badges
deriving Repr, DecidableEq

/-- All ten FindWhat kinds, in source order. -/
def findWhatAll : List FindWhat :=
  [.Events, .Pages, .Posts, .Members, .Pats, .Invites, .EmailsSent,
   .Tags, .Categories, .Badges]

/-- InclPageFields (src lines 548-568): per-field inclusion flags for
pages; note that id is itself one of the optional flags. -/
structure InclPageFields where
  id : Option Bo := none
  refId : Option Bo := none
  numOpLikeVotes : Option Bo := none
  numOpDoItVotes : Option Bo := none
  numOpDoNotVotes : Option Bo := none
  numTotRepliesVisible : Option Bo := none
  title : Option Bo := none
  origPost : Option Bo := none
deriving Repr, DecidableEq

/-- InclPatFields (src lines 580-588). -/
structure InclPatFields where
  id : Option Bo := none
  refId : Option Bo := none
  ssoId : Option Bo := none
  fullName : Option Bo := none
  username : Option Bo := none
  isGuest : Option Bo := none
deriving Repr, DecidableEq

/-- GetPagesQuery (src lines 532-536): getWhat is the literal Pages. -/
structure GetPagesQuery where
  getRefs : List PageRef
  inclFields : Option InclPageFields
deriving Repr, DecidableEq

/-- GetPatsQuery (src lines 571-577): getWhat is the literal Pats; the
source marks this query as not implemented. -/
structure GetPatsQuery where
  getRefs : List PatRef
  inclFields : InclPatFields
deriving Repr, DecidableEq

/-- The source marks GetPatsQuery as not implemented (src line 573 has
the comment: not impl). -/
def getPatsQueryImplemented : Bool := false

/-- The getQuery payload: GetPagesQuery | GetPatsQuery (src line 522) —
these are the only two members of the union. -/
inductive GetQueryChoice where
  | pages (q : GetPagesQuery)
  | pats (q : GetPatsQuery)
deriving Repr, DecidableEq

/-- The getWhat discriminator carried by each getQuery variant
(src lines 533 and 574). -/
def GetQueryChoice.getWhat : GetQueryChoice → FindWhat
  | .pages _ => .Pages
  | .pats _ => .Pats

/-- The refs carried by a getQuery. -/
def GetQueryChoice.getRefs : GetQueryChoice → List Ref
  | .pages q => q.getRefs
  | .pats q => q.getRefs

/-- Claim C10: FindWhat enumerates ten kinds, yet the getQuery payload is
only GetPagesQuery or GetPatsQuery (the latter declared unimplemented),
so a Get request for any of the other eight kinds is not expressible. -/
theorem getQuery_only_pages_or_pats :
    findWhatAll.length = 10 ∧
    (∀ k : FindWhat, k ∈ findWhatAll) ∧
    (∀ q : GetQueryChoice, q.getWhat = .Pages ∨ q.getWhat = .Pats) ∧
    (∀ k : FindWhat, k ≠ .Pages → k ≠ .Pats →
       ¬ ∃ q : GetQueryChoice, q.getWhat = k) ∧
    getPatsQueryImplemented = false := by
  refine ⟨rfl, ?_, ?_, ?_, rfl⟩
  · intro k
    cases k <;> simp [findWhatAll]
  · intro q
    cases q with
    | pages q2 => exact Or.inl rfl
    | pats q2 => exact Or.inr rfl
  · rintro k hp hpt ⟨q, hq⟩
    cases q with
    | pages q2 => exact hp hq.symm
    | pats q2 => exact hpt hq.symm

/-- Claim C10 witness: no getQuery asks for Events. -/
theorem getQuery_only_pages_or_pats_witness :
    ¬ ∃ q : GetQueryChoice, q.getWhat = FindWhat.Events :=
  getQuery_only_pages_or_pats.2.2.2.1 FindWhat.Events (by decide) (by decide)

/-! ## Position-keyed merging (spec section 5: independent sub-units may
complete in any order, but results are merged keyed by original
position, never by completion order) -/

/-- Modelled from the spec: worker tasks complete in the order given by
the completion schedule, each producing its original position paired with
its outcome. -/
def completeInOrder {A : Type} (f : Nat → A) (order : List Nat) :
    List (Nat × A) :=
  order.map fun i => (i, f i)

/-- Modelled from the spec: re-merge completed outcomes into the original
index order, keyed by original position. -/
def mergeByPos {A : Type} (n : Nat) (d : A) (completed : List (Nat × A)) :
    List A :=
  (List.range n).map fun i =>
    (((completed.find? fun p => p.1 == i).map Prod.snd).getD d)

theorem find?_completeInOrder {A : Type} (f : Nat → A) (i : Nat) :
    ∀ order : List Nat, i ∈ order →
      (completeInOrder f order).find? (fun p => p.1 == i) = some (i, f i) := by
  intro order
  induction order with
  | nil => intro h; cases h
  | cons j rest ih =>
    intro h
    rw [completeInOrder, List.map_cons]
    by_cases hj : j = i
    · subst hj
      rw [List.find?_cons_of_pos]
      simp
    · rw [List.find?_cons_of_neg]
      · have hmem : i ∈ rest := by
          cases h with
          | head => exact absurd rfl hj
          | tail _ h2 => exact h2
        exact ih hmem
      · simp [hj]

theorem mergeByPos_length {A : Type} (n : Nat) (d : A)
    (completed : List (Nat × A)) :
    (mergeByPos n d completed).length = n := by
  simp [mergeByPos]

theorem mergeByPos_getElem? {A : Type} (n : Nat) (d : A) (f : Nat → A)
    (order : List Nat) (hperm : order.Perm (List.range n)) (i : Nat) :
    (mergeByPos n d (completeInOrder f order))[i]? =
      if i < n then some (f i) else none := by
  by_cases hi : i < n
  · have hmem : i ∈ order := hperm.mem_iff.mpr (List.mem_range.mpr hi)
    rw [mergeByPos, List.getElem?_map, if_pos hi]
    rw [List.getElem?_range hi]
    simp [find?_completeInOrder f i order hmem]
  · rw [if_neg hi, List.getElem?_eq_none]
    rw [mergeByPos_length]
    omega

/-! ## The Get endpoint (src lines 497-668) -/

/-- One entry of GetQueryResults.thingsOrErrs, whose element type is
T | ErrCodeMsg | null (src line 602): the found thing, a per-item error,
or null for a thing that was missing. -/
inductive ThingOrErr (T : Type) where
  | thing (t : T)
  | err (e : ErrCodeMsg)
  | null
deriving Repr, DecidableEq

/-- GetQueryResults (src lines 598-603): the origin plus one thingsOrErrs
item for each getRefs item, in the same order. -/
structure GetQueryResults (T : Type) where
  origin : St
  thingsOrErrs : List (ThingOrErr T)

/-- Modelled from the spec: the Get Executor (spec 4.3 and 5) is absent
from src/, which is API documentation (types and pseudocode) only. Each
ref is looked up independently — lookup abstracts ref resolution plus the
primary-key fetch, yielding the thing, a per-item error, or null — worker
tasks may complete in any order (the order schedule), and outcomes are
merged keyed by original position. -/
def getExecutorMerged {T : Type} (lookup : Ref → ThingOrErr T) (origin : St)
    (refs : List Ref) (order : List Nat) : GetQueryResults T :=
  { origin := origin,
    thingsOrErrs :=
      mergeByPos refs.length .null
        (completeInOrder (fun i => lookup (refs.getD i "")) order) }

/-- Claim C1: for a Get request with N entries in getRefs, the response
thingsOrErrs sequence has exactly N elements and element i is the lookup
outcome of getRefs[i], for every completion order of the individual
lookups (any permutation of the positions). -/
theorem getQuery_slots_align {T : Type} (lookup : Ref → ThingOrErr T)
    (origin : St) (refs : List Ref) (order : List Nat)
    (hperm : order.Perm (List.range refs.length)) :
    (getExecutorMerged lookup origin refs order).thingsOrErrs.length =
      refs.length ∧
    ∀ i : Nat,
      (getExecutorMerged lookup origin refs order).thingsOrErrs[i]? =
        (refs[i]?).map lookup := by
  constructor
  · exact mergeByPos_length _ _ _
  · intro i
    show (mergeByPos refs.length .null
        (completeInOrder (fun i => lookup (refs.getD i "")) order))[i]? = _
    rw [mergeByPos_getElem? refs.length (ThingOrErr.null : ThingOrErr T)
      (fun i => lookup (refs.getD i "")) order hperm i]
    by_cases hi : i < refs.length
    · rw [if_pos hi, List.getElem?_eq_getElem hi]
      have hgd : refs.getD i "" = refs[i] := by
        rw [List.getD_eq_getElem?_getD, List.getElem?_eq_getElem hi]
        rfl
      rw [hgd]
      rfl
    · rw [if_neg hi, List.getElem?_eq_none (by omega)]
      rfl

/-- A concrete lookup table used to witness the Get theorems: ref a is
found, ref b fails with a per-item error, anything else is missing. -/
def lookupSample : Ref → ThingOrErr Nat :=
  fun r =>
    if r = "emgurl:https://blog/a-blog-post" then .thing 11
    else if r = "emgurl:https://blog/another" then
      .err ⟨"TyEPGNF", "Page not found"⟩
    else .null

/-- Claim C1 witness: with three concrete refs looked up in the
completion order 2, 0, 1, the response still has three slots. -/
theorem getQuery_slots_align_witness :
    (getExecutorMerged lookupSample "https://example.com"
        ["emgurl:https://blog/a-blog-post", "emgurl:https://blog/another",
         "emgurl:https://blog/a-third"] [2, 0, 1]).thingsOrErrs.length = 3 :=
  (getQuery_slots_align lookupSample "https://example.com"
    ["emgurl:https://blog/a-blog-post", "emgurl:https://blog/another",
     "emgurl:https://blog/a-third"] [2, 0, 1] (by decide)).1

/-- Request-level authorization outcome, decided before any lookup
starts (spec 4.3 and 7; src sample at lines 637-646: a complete failure
returns only the error envelope, e.g. status 403). -/
inductive AuthzResult where
  | allowed
  | denied (e : ResponseError)

/-- Modelled from the spec: the Get endpoint around the executor
(spec 4.3 and 7) is absent from src/. An authorization denial
short-circuits to the error envelope alone (which carries no slot
sequence, per the src sample at lines 637-646); an allowed request maps
every ref independently into its slot. -/
def getEndpoint {T : Type} (authz : AuthzResult)
    (lookup : Ref → ThingOrErr T) (origin : St) (refs : List Ref) :
    ApiResponse (GetQueryResults T) :=
  match authz with
  | .denied e => .err ⟨e⟩
  | .allowed => .ok { origin := origin, thingsOrErrs := refs.map lookup }

/-- Claim C3: per-item failures never affect sibling items — under an
allowed request, slot j is exactly the lookup outcome of refs[j] whatever
the other refs resolve to (so an error or null at one position leaves
every other resolvable slot carrying its thing) — while a request-level
denial returns only the top-level error envelope, a value that carries no
per-item slot sequence at all. -/
theorem getEndpoint_failure_isolation {T : Type}
    (lookup : Ref → ThingOrErr T) (origin : St) (refs : List Ref) :
    (∃ res, getEndpoint .allowed lookup origin refs = .ok res ∧
        res.thingsOrErrs.length = refs.length ∧
        ∀ j : Nat, res.thingsOrErrs[j]? = (refs[j]?).map lookup) ∧
    (∀ e, getEndpoint (.denied e) lookup origin refs = .err ⟨e⟩) := by
  refine ⟨⟨_, rfl, by simp, ?_⟩, fun e => rfl⟩
  intro j
  simp [List.getElem?_map]

/-! ## LookWhere (src lines 161-209) -/

/-- LookWhere (src lines 161-209): which fields or content sections to
look in when searching or listing. -/
structure LookWhere where
  usernames : Option Bo := none
  fullNames : Option Bo := none
  emailAddresses : Option Bo := none
  inGroups : Option (List MemberRef) := none
  withBadges : Option (List BadgeRef) := none
  aboutText : Option Bo := none
  titleText : Option Bo := none
  bodyText : Option Bo := none
  repliesText : Option Bo := none
  pageText : Option Bo := none
  pageTypes : Option (List PageTypeSt) := none
  inPages : Option (List PageRef) := none
  inCategories : Option (List CategoryRef) := none
  withTags : Option (List TypeRef) := none
  writtenBy : Option (List MemberRef) := none
deriving Repr, DecidableEq

/-! ## The Search query (src lines 861-942) -/

/-- SinglSearchQuery (src lines 891-899): freetext, and the optional
findWhat and lookWhere. -/
structure SinglSearchQuery where
  freetext : Option St := none
  findWhat : Option FindWhat := none
  lookWhere : Option LookWhere := none
deriving Repr, DecidableEq

/-- The default lookWhere for a search: { pageText: true } (src comment
at line 925). -/
def defaultSearchLookWhere : LookWhere := { pageText := some true }

/-- Modelled from the spec: the Search Executor default application
(spec 4.5) is absent from src/; the defaults themselves are documented in
the source (src lines 919-927): an unspecified findWhat becomes Pages and
an unspecified lookWhere becomes { pageText: true }, and a request with
defaults applied is the same as the request with those fields explicit. -/
def applySearchDefaults (q : SinglSearchQuery) : SinglSearchQuery :=
  { freetext := q.freetext,
    findWhat := some (q.findWhat.getD .Pages),
    lookWhere := some (q.lookWhere.getD defaultSearchLookWhere) }

/-- Claim C8: a Search request in which findWhat or lookWhere is
unspecified gets the defaults findWhat = Pages and
lookWhere = { pageText: true }, and normalizes to exactly the same query
as the request with those fields given explicitly (freetext kept). -/
theorem search_defaults (q : SinglSearchQuery) :
    applySearchDefaults q =
      applySearchDefaults
        { freetext := q.freetext,
          findWhat := some (q.findWhat.getD .Pages),
          lookWhere := some (q.lookWhere.getD defaultSearchLookWhere) } ∧
    (q.findWhat = none →
       (applySearchDefaults q).findWhat = some .Pages) ∧
    (q.lookWhere = none →
       (applySearchDefaults q).lookWhere = some defaultSearchLookWhere) ∧
    (applySearchDefaults q).freetext = q.freetext := by
  refine ⟨rfl, ?_, ?_, rfl⟩
  · intro h
    simp [applySearchDefaults, h]
  · intro h
    simp [applySearchDefaults, h]

/-- Claim C8 witness: the source example query with only freetext
(src line 916) gets findWhat Pages after default application. -/
theorem search_defaults_witness :
    (applySearchDefaults { freetext := some "how climb a tree" }).findWhat =
      some FindWhat.Pages :=
  (search_defaults { freetext := some "how climb a tree" }).2.1 rfl

/-! ## The Do endpoint: actions (src lines 996-1223) -/

/-- ActionType (src lines 1019-1026). -/
inductive ActionType where
  | UpsertType
  | CreatePage
  | CreateComment
  | DeletePosts
  | SetVote
  | SetNotfLevel
deriving Repr, DecidableEq

/-- TagAnyVal (src lines 345-351). -/
structure TagAnyVal where
  tagType : TypeRef
  valType : Option St := none
  valInt32 : Option Nr := none
  valFlt64 : Option Float := none
  valStr : Option St := none

/-- UpsertTypeParams (src lines 1034-1041). -/
structure UpsertTypeParams where
  refId : Option RefId := none
  kindOfType : St := "TagType"
  dispName : St
  urlSlug : Option St := none
  valueType : Option St := none

/-- SetVoteParams (src lines 1048-1056): howMany is 0 or 1. -/
structure SetVoteParams where
  voteType : St := "Like"
  howMany : Fin 2
  whatPage : Option PageRef := none
  postNr : Option PostNr := none
  whatPost : Option PostRef := none

/-- One whatPages entry of SetNotfLevel:
{ pageId } | { inCategoryId } (src line 1062). -/
inductive NotfPageSel where
  | byPageId (pageId : St)
  | byCategoryId (inCategoryId : CatId)

/-- SetNotfLevelAction doHow (src lines 1058-1064). -/
structure SetNotfLevelParams where
  toLevel : Nr
  whatPages : List NotfPageSel

/-- CreatePostParams (src lines 1090-1095). -/
structure CreatePostParams where
  refId : Option Ref := none
  bodySrc : St
  bodyFmt : St := "CommonMark"
  withTags : Option (List TagAnyVal) := none

/-- CreatePageParams (src lines 1071-1075). -/
structure CreatePageParams extends CreatePostParams where
  title : St
  pageType : PageTypeSt
  inCategory : CatRef

/-- CreateCommentParams (src lines 1083-1087). -/
structure CreateCommentParams extends CreatePostParams where
  parentNr : Option PostNr := none
  whatPage : PageRef

/-- DeletePostsParams (src lines 1114-1118). -/
structure DeletePostsParams where
  whatPost : Option PostRef := none
  postsCreatedBy : Option PatRef := none
  postsCreatedAfter : Option WhenMs := none

/-- The per-action-type doHow payload, pairing each ActionType with its
params interface (src lines 1029-1118). -/
inductive DoHow where
  | upsertType (p : UpsertTypeParams)
  | createPage (p : CreatePageParams)
  | createComment (p : CreateCommentParams)
  | deletePosts (p : DeletePostsParams)
  | setVote (p : SetVoteParams)
  | setNotfLevel (p : SetNotfLevelParams)

/-- The doWhat discriminator determined by the doHow variant, per the
per-type Action interfaces (src lines 1029-1111). -/
def DoHow.doWhat : DoHow → ActionType
  | .upsertType _ => .UpsertType
  | .createPage _ => .CreatePage
  | .createComment _ => .CreateComment
  | .deletePosts _ => .DeletePosts
  | .setVote _ => .SetVote
  | .setNotfLevel _ => .SetNotfLevel

/-- One non-nested Action (src lines 1012-1017): asWho, the optional
doWhy audit note, and the doWhat-tagged doHow payload. -/
structure SingleAction where
  asWho : St
  doWhy : Option St := none
  doHow : DoHow

/-- A doActions entry: a single action, or the nested doActions batch
shown in the source example (src lines 1186-1190, marked not
implemented there — maybe never). -/
inductive Action where
  | single (a : SingleAction)
  | nestedBatch (inSingleTransaction : Bool) (doActions : List Action)

/-- One entry of ManyResults.results, whose element type is
OkResult | ErrorResult | ManyResults (src lines 61-72): ok, a per-action
error, or the nested batch's own result sequence. -/
inductive DoResult where
  | ok
  | err (e : ErrCodeMsg)
  | nested (results : List DoResult)

/-- ManyResults (src lines 61-63). -/
structure ManyResults where
  results : List DoResult

/-- The outcome of one single (non-batch) action: ok or a per-action
error (src lines 66-72). -/
inductive SingleOutcome where
  | ok
  | err (e : ErrCodeMsg)

/-- Embed a single-action outcome into a result slot. -/
def SingleOutcome.toDoResult : SingleOutcome → DoResult
  | .ok => .ok
  | .err e => .err e

mutual

/-- Modelled from the spec: the Action Executor (spec 4.6) on one action
is absent from src/, which documents only the request and response types;
a single action's outcome is abstracted by runSingle, and a nested batch
yields a nested result wrapping the batch's own full result sequence. -/
def runAction (runSingle : SingleAction → SingleOutcome) :
    Action → DoResult
  | .single a => (runSingle a).toDoResult
  | .nestedBatch _ as => .nested (runActions runSingle as)

/-- Modelled from the spec: the Action Executor on a batch, one action at
a time in input order. -/
def runActions (runSingle : SingleAction → SingleOutcome) :
    List Action → List DoResult
  | [] => []
  | a :: as => runAction runSingle a :: runActions runSingle as

end

theorem runActions_eq_map (runSingle : SingleAction → SingleOutcome) :
    ∀ as : List Action,
      runActions runSingle as = as.map (runAction runSingle) := by
  intro as
  induction as with
  | nil => rfl
  | cons a as ih => rw [runActions, List.map_cons, ih]

/-- Claim C2: for every action batch of length N the result sequence has
length N, element i being the outcome of action i; and an action that is
itself a nested batch of M actions yields a nested result whose inner
sequence is that batch's own result sequence, hence of length M — and
since the first two conjuncts quantify over all batches, the
correspondence holds recursively at every nesting depth. -/
theorem doActions_results_shape (runSingle : SingleAction → SingleOutcome) :
    (∀ as : List Action,
       (runActions runSingle as).length = as.length) ∧
    (∀ (as : List Action) (i : Nat),
       (runActions runSingle as)[i]? = (as[i]?).map (runAction runSingle)) ∧
    (∀ (tx : Bool) (bs : List Action),
       runAction runSingle (.nestedBatch tx bs) =
         .nested (runActions runSingle bs)) := by
  refine ⟨?_, ?_, fun tx bs => rfl⟩
  · intro as
    rw [runActions_eq_map, List.length_map]
  · intro as i
    rw [runActions_eq_map, List.getElem?_map]

/-! ## The List query and the Query (runQueries) endpoint
(src lines 674-744, 946-991) -/

/-- PageFilter (src lines 732-737). -/
structure PageFilter where
  isDeleted : Option Bo := none
  isOpen : Option Bo := none
  isAuthorWaiting : Option Bo := none
  pageTypeIn : Option (List PageTypeSt) := none
deriving Repr, DecidableEq

/-- ListQuery (src lines 703-717). -/
structure ListQuery where
  listWhat : FindWhat
  inclFields : Option InclPageFields := none
  exactPrefix : Option St := none
  lookWhere : Option LookWhere := none
  filter : Option PageFilter := none
  sortOrder : Option St := none
  limit : Option Nr := none
deriving Repr, DecidableEq

/-- GetQueryApiTask (src lines 521-523). -/
structure GetQueryApiTask where
  getQuery : GetQueryChoice
deriving Repr, DecidableEq

/-- ListQueryApiTask (src lines 693-696). -/
structure ListQueryApiTask where
  listQuery : ListQuery
  limit : Option Nr := none
deriving Repr, DecidableEq

/-- SearchQueryApiTask (src lines 871-874); the compound search query is
declared not implemented in the source (src lines 884-888), so the
searchQuery payload is a SinglSearchQuery. -/
structure SearchQueryApiTask where
  searchQuery : SinglSearchQuery
  limit : Option Nr := none
deriving Repr, DecidableEq

/-- QueryApiTask = GetQueryApiTask | ListQueryApiTask |
SearchQueryApiTask (src line 991): the only three sub-task kinds of a
runQueries request. -/
inductive QueryApiTask where
  | getQ (t : GetQueryApiTask)
  | listQ (t : ListQueryApiTask)
  | searchQ (t : SearchQueryApiTask)
deriving Repr, DecidableEq

/-- ManyQueriesApiTask (src lines 987-989). -/
structure ManyQueriesApiTask where
  runQueries : List QueryApiTask

/-- The five task kinds accepted across the API endpoints: the three
query kinds, the doActions batch (src lines 1005-1007), and the
runQueries multi-task (src lines 987-989). -/
inductive AnyApiTask where
  | getTask (t : GetQueryApiTask)
  | listTask (t : ListQueryApiTask)
  | searchTask (t : SearchQueryApiTask)
  | doTask (doActions : List Action)
  | manyQueriesTask (t : ManyQueriesApiTask)

/-- Embed a runQueries sub-task into the full task union. -/
def QueryApiTask.toAnyApiTask : QueryApiTask → AnyApiTask
  | .getQ t => .getTask t
  | .listQ t => .listTask t
  | .searchQ t => .searchTask t

/-- Whether a task is a doActions batch. -/
def AnyApiTask.isDoActionsTask : AnyApiTask → Bool
  | .doTask _ => true
  | _ => false

/-- Modelled from the spec: the Multi-Task Coordinator (spec 4.8 and 5)
is absent from src/, which documents only the request type. Each sub-task
executes independently — runOne abstracts one sub-task's complete
outcome, success or per-sub-task failure, so one sub-task's failure
cannot cancel another — sub-tasks may complete in any order, and the
outcomes are merged keyed by input position. -/
def runQueriesCoordinator {Outcome : Type} (runOne : QueryApiTask → Outcome)
    (dflt : Outcome) (tasks : List QueryApiTask) (order : List Nat) :
    List Outcome :=
  mergeByPos tasks.length dflt
    (completeInOrder
      (fun i => match tasks[i]? with
        | some t => runOne t
        | none => dflt)
      order)

/-- Claim C6: a runQueries sub-task can only be a Get, List or Search
query — never a doActions batch — each sub-task's outcome depends only on
that sub-task (runOne is applied to it alone), and the coordinator's
response has one entry per sub-task, in input order, for every completion
order of the sub-tasks. -/
theorem runQueries_order_and_kinds {Outcome : Type}
    (runOne : QueryApiTask → Outcome) (dflt : Outcome)
    (tasks : List QueryApiTask) (order : List Nat)
    (hperm : order.Perm (List.range tasks.length)) :
    (∀ t : QueryApiTask,
       ((∃ g, t = .getQ g) ∨ (∃ l, t = .listQ l) ∨ (∃ s, t = .searchQ s)) ∧
       t.toAnyApiTask.isDoActionsTask = false) ∧
    (runQueriesCoordinator runOne dflt tasks order).length = tasks.length ∧
    (∀ i : Nat,
       (runQueriesCoordinator runOne dflt tasks order)[i]? =
         (tasks[i]?).map runOne) := by
  refine ⟨?_, mergeByPos_length _ _ _, ?_⟩
  · intro t
    cases t with
    | getQ g => exact ⟨Or.inl ⟨g, rfl⟩, rfl⟩
    | listQ l => exact ⟨Or.inr (Or.inl ⟨l, rfl⟩), rfl⟩
    | searchQ s => exact ⟨Or.inr (Or.inr ⟨s, rfl⟩), rfl⟩
  · intro i
    show (mergeByPos tasks.length dflt
        (completeInOrder
          (fun i => match tasks[i]? with
            | some t => runOne t
            | none => dflt)
          order))[i]? = _
    rw [mergeByPos_getElem? tasks.length dflt
      (fun i => match tasks[i]? with
        | some t => runOne t
        | none => dflt)
      order hperm i]
    by_cases hi : i < tasks.length
    · rw [if_pos hi, List.getElem?_eq_getElem hi]
      rfl
    · rw [if_neg hi, List.getElem?_eq_none (by omega)]
      rfl

/-- The three sample sub-tasks of spec scenario D: one Get, one List,
one Search. -/
def sampleRunQueries : List QueryApiTask :=
  [.getQ { getQuery := .pages { getRefs := ["pageid:111"], inclFields := none } },
   .listQ { listQuery := { listWhat := .Members } },
   .searchQ { searchQuery := { freetext := some "how climb a tree" } }]

/-- Claim C6 witness: the three sub-tasks of scenario D yield three
outcome entries even when the completion order is 2, 0, 1. -/
theorem runQueries_order_and_kinds_witness :
    (runQueriesCoordinator (fun t => t.toAnyApiTask.isDoActionsTask) true
        sampleRunQueries [2, 0, 1]).length = 3 :=
  (runQueries_order_and_kinds (fun t => t.toAnyApiTask.isDoActionsTask) true
    sampleRunQueries [2, 0, 1] (by decide)).2.1

/-! ## Field projection (spec 4.7; src lines 143-151, 261-277, 548-568,
605-635) -/

/-- A fully populated internal page record, the Projection Engine's
input; its fields follow InclPageFields (src lines 548-568) and
PageOptFields (src lines 261-277). -/
structure PageRecord where
  id : PageId
  refId : RefId
  numOpLikeVotes : Nr
  numOpDoItVotes : Nr
  numOpDoNotVotes : Nr
  numTotRepliesVisible : Nr
  title : St
  origPostBody : St

/-- The page attributes controlled by InclPageFields flags
(src lines 548-568). -/
inductive PageAttr where
  | id
  | refId
  | numOpLikeVotes
  | numOpDoItVotes
  | numOpDoNotVotes
  | numTotRepliesVisible
  | title
  | origPost
deriving Repr, DecidableEq

/-- The JSON key of each page attribute. -/
def PageAttr.name : PageAttr → String
  | .id => "id"
  | .refId => "refId"
  | .numOpLikeVotes => "numOpLikeVotes"
  | .numOpDoItVotes => "numOpDoItVotes"
  | .numOpDoNotVotes => "numOpDoNotVotes"
  | .numTotRepliesVisible => "numTotRepliesVisible"
  | .title => "title"
  | .origPost => "origPost"

/-- The inclusion flag an InclPageFields value gives each attribute; an
absent flag counts as false. -/
def InclPageFields.flag (s : InclPageFields) : PageAttr → Bool
  | .id => s.id.getD false
  | .refId => s.refId.getD false
  | .numOpLikeVotes => s.numOpLikeVotes.getD false
  | .numOpDoItVotes => s.numOpDoItVotes.getD false
  | .numOpDoNotVotes => s.numOpDoNotVotes.getD false
  | .numTotRepliesVisible => s.numTotRepliesVisible.getD false
  | .title => s.title.getD false
  | .origPost => s.origPost.getD false

/-- The value a page record holds for each attribute. -/
def PageRecord.value (p : PageRecord) : PageAttr → Json
  | .id => .str p.id
  | .refId => .str p.refId
  | .numOpLikeVotes => .num p.numOpLikeVotes
  | .numOpDoItVotes => .num p.numOpDoItVotes
  | .numOpDoNotVotes => .num p.numOpDoNotVotes
  | .numTotRepliesVisible => .num p.numTotRepliesVisible
  | .title => .str p.title
  | .origPost => .str p.origPostBody

/-- A JSON field that is present only under its inclusion flag. -/
def inclIf (c : Bool) (k : String) (v : Json) : List (String × Json) :=
  if c then [(k, v)] else []

/-- Modelled from the spec: the Field Projection Engine for pages
(spec 4.7) is absent from src/. Its per-field behavior follows the
source: InclPageFields (src lines 548-568) makes id itself an inclusion
flag, the sample response (src lines 625-635) carries only the requested
fields — neither id nor what — and Thing.what is optional, not needed
when only one thing type is possible (src lines 143-151). So an
attribute is emitted iff its flag is true, and no what tag is emitted. -/
def projectPage (s : InclPageFields) (p : PageRecord) : Json :=
  .obj (inclIf (s.flag .id) (PageAttr.name .id) (p.value .id) ++
        inclIf (s.flag .refId) (PageAttr.name .refId) (p.value .refId) ++
        inclIf (s.flag .numOpLikeVotes) (PageAttr.name .numOpLikeVotes)
          (p.value .numOpLikeVotes) ++
        inclIf (s.flag .numOpDoItVotes) (PageAttr.name .numOpDoItVotes)
          (p.value .numOpDoItVotes) ++
        inclIf (s.flag .numOpDoNotVotes) (PageAttr.name .numOpDoNotVotes)
          (p.value .numOpDoNotVotes) ++
        inclIf (s.flag .numTotRepliesVisible)
          (PageAttr.name .numTotRepliesVisible)
          (p.value .numTotRepliesVisible) ++
        inclIf (s.flag .title) (PageAttr.name .title) (p.value .title) ++
        inclIf (s.flag .origPost) (PageAttr.name .origPost)
          (p.value .origPost))

theorem keys_inclIf (c : Bool) (k : String) (v : Json) :
    (inclIf c k v).map Prod.fst = if c then [k] else [] := by
  cases c <;> simp [inclIf]

theorem mem_ite_singleton (x k : String) (c : Bool) :
    (x ∈ if c then [k] else []) ↔ (c = true ∧ x = k) := by
  cases c <;> simp

/-- The inclusion spec of the source's own Get example
(src lines 618-621). -/
def sampleInclFields : InclPageFields :=
  { numOpLikeVotes := some true, numTotRepliesVisible := some true }

/-- A concrete fully populated page record. -/
def samplePage : PageRecord :=
  { id := "p1", refId := "r1", numOpLikeVotes := 11, numOpDoItVotes := 0,
    numOpDoNotVotes := 0, numTotRepliesVisible := 22,
    title := "A blog post", origPostBody := "text" }

/-- Claim C5 counterexample: projecting a page under the source's own
sample inclusion spec (src lines 618-621) yields an object containing
neither an id key nor a what kind key — exactly as the source's sample
response shows (src lines 625-635) — so the output does not always
contain the mandatory kind and id. -/
theorem projectPage_missing_mandatory :
    "id" ∉ (projectPage sampleInclFields samplePage).keys ∧
    "what" ∉ (projectPage sampleInclFields samplePage).keys ∧
    (projectPage sampleInclFields samplePage).keys =
      ["numOpLikeVotes", "numTotRepliesVisible"] := by
  refine ⟨?_, ?_, ?_⟩ <;>
    simp [projectPage, Json.keys, sampleInclFields, samplePage, inclIf,
      InclPageFields.flag, PageAttr.name]

/-- Claim C5 (amended): the projected page contains exactly the
attributes whose inclusion flag is true — in particular never an optional
attribute whose flag is false or absent — and the kind tag what is never
emitted while id is itself flag-controlled rather than mandatory. -/
theorem projectPage_flagged_fields (s : InclPageFields) (p : PageRecord) :
    (∀ a : PageAttr,
       a.name ∈ (projectPage s p).keys ↔ s.flag a = true) ∧
    "what" ∉ (projectPage s p).keys := by
  constructor
  · intro a
    cases a <;>
      simp [projectPage, Json.keys, keys_inclIf, mem_ite_singleton,
        PageAttr.name]
  · simp [projectPage, Json.keys, keys_inclIf, mem_ite_singleton,
      PageAttr.name]

/-- Claim C5 (amended) witness: under the sample inclusion spec the
numOpLikeVotes attribute, whose flag is true, is present. -/
theorem projectPage_flagged_fields_witness :
    PageAttr.numOpLikeVotes.name ∈
      (projectPage sampleInclFields samplePage).keys :=
  ((projectPage_flagged_fields sampleInclFields samplePage).1
    PageAttr.numOpLikeVotes).mpr rfl

/-! ## The Task Decoder (spec 4.2): discriminators getQuery, listQuery,
searchQuery, doActions, runQueries -/

/-- Modelled from the spec: the raw, not-yet-validated getQuery body
fields (spec 4.2); src/ documents only the already-typed request
shapes. -/
structure RawGetQuery where
  getWhat : St
  getRefs : List St

/-- Modelled from the spec: the raw listQuery body fields (listWhat with
its kind-dependent sortOrder, spec 4.2 and src lines 703-744). -/
structure RawListQuery where
  listWhat : St
  sortOrder : Option St

/-- Modelled from the spec: the raw searchQuery body fields
(src lines 891-899). -/
structure RawSearchQuery where
  freetext : Option St
  findWhat : Option St

/-- Modelled from the spec: one raw runQueries sub-task, which may carry
any of the three query discriminators (src lines 952-991). -/
structure RawQueryTask where
  getQuery : Option RawGetQuery
  listQuery : Option RawListQuery
  searchQuery : Option RawSearchQuery

/-- Modelled from the spec: a raw request body, which may carry any of
the five task discriminators (spec 4.2). -/
structure RawApiRequest where
  getQuery : Option RawGetQuery
  listQuery : Option RawListQuery
  searchQuery : Option RawSearchQuery
  doActions : Option (List Action)
  runQueries : Option (List RawQueryTask)

/-- Parse a FindWhat kind name (the ten string values of src
lines 103-132). -/
def parseFindWhat : St → Option FindWhat
  | "Events" => some .Events
  | "Pages" => some .Pages
  | "Posts" => some .Posts
  | "Members" => some .Members
  | "Pats" => some .Pats
  | "Invites" => some .Invites
  | "EmailsSent" => some .EmailsSent
  | "Tags" => some .Tags
  | "Categories" => some .Categories
  | "Badges" => some .Badges
  | _ => none

/-- The sortOrder values legal for each listWhat kind: PageSortOrder for
Pages (src line 85, used at line 728) and EventSortOrder for Events
(src line 91, used at line 743); no other kind declares a sortOrder. -/
def legalSortOrders : FindWhat → List St
  | .Pages => ["PopularFirst", "ActiveFirst", "NewestFirst"]
  | .Events => ["NewestFirst", "OldestFirst"]
  | _ => []

/-- A decoded runQueries sub-task: exactly one of the three query
variants. -/
inductive DecodedQueryTask where
  | getTask (q : GetQueryChoice)
  | listTask (listWhat : FindWhat) (sortOrder : Option St)
  | searchTask (freetext : Option St) (findWhat : Option FindWhat)

/-- A decoded top-level task: exactly one of the five variants. -/
inductive DecodedApiTask where
  | getTask (q : GetQueryChoice)
  | listTask (listWhat : FindWhat) (sortOrder : Option St)
  | searchTask (freetext : Option St) (findWhat : Option FindWhat)
  | doTask (doActions : List Action)
  | runQueriesTask (tasks : List DecodedQueryTask)

/-- Modelled from the spec: whole-request decode failures (spec 4.2
and 7). -/
inductive RequestDecodeError where
  | wrongDiscriminatorCount (count : Nat)
  | invalidPayload (discriminator : St)

/-- How many of the three query discriminators a raw sub-task carries. -/
def RawQueryTask.presentCount (t : RawQueryTask) : Nat :=
  (if t.getQuery.isSome then 1 else 0) +
    (if t.listQuery.isSome then 1 else 0) +
    (if t.searchQuery.isSome then 1 else 0)

/-- How many of the five task discriminators a raw request carries. -/
def RawApiRequest.presentCount (r : RawApiRequest) : Nat :=
  (if r.getQuery.isSome then 1 else 0) +
    (if r.listQuery.isSome then 1 else 0) +
    (if r.searchQuery.isSome then 1 else 0) +
    (if r.doActions.isSome then 1 else 0) +
    (if r.runQueries.isSome then 1 else 0)

/-- Decode and validate a getQuery payload: only the kinds Pages and
Pats are admissible (src line 522). -/
def decodeGetQuery (g : RawGetQuery) : Option GetQueryChoice :=
  match parseFindWhat g.getWhat with
  | some .Pages => some (.pages { getRefs := g.getRefs, inclFields := none })
  | some .Pats => some (.pats { getRefs := g.getRefs, inclFields := {} })
  | _ => none

/-- Decode and validate a listQuery payload: the listWhat kind must
parse, and a sortOrder is only legal for its declared listWhat kind. -/
def decodeListQuery (l : RawListQuery) : Option (FindWhat × Option St) :=
  match parseFindWhat l.listWhat with
  | none => none
  | some fw =>
    match l.sortOrder with
    | none => some (fw, none)
    | some so =>
      if so ∈ legalSortOrders fw then some (fw, some so) else none

/-- Decode and validate a searchQuery payload: a given findWhat must
parse. -/
def decodeSearchQuery (sq : RawSearchQuery) :
    Option (Option St × Option FindWhat) :=
  match sq.findWhat with
  | none => some (sq.freetext, none)
  | some fwStr =>
    match parseFindWhat fwStr with
    | none => none
    | some fw => some (sq.freetext, some fw)

/-- Independent payload validity for a getQuery. -/
def validGetPayload (g : RawGetQuery) : Bool :=
  match parseFindWhat g.getWhat with
  | some .Pages => true
  | some .Pats => true
  | _ => false

/-- Independent payload validity for a listQuery. -/
def validListPayload (l : RawListQuery) : Bool :=
  match parseFindWhat l.listWhat, l.sortOrder with
  | none, _ => false
  | some _, none => true
  | some fw, some so => decide (so ∈ legalSortOrders fw)

/-- Independent payload validity for a searchQuery. -/
def validSearchPayload (sq : RawSearchQuery) : Bool :=
  match sq.findWhat with
  | none => true
  | some fwStr => (parseFindWhat fwStr).isSome

/-- Validity of one raw runQueries sub-task: exactly one query
discriminator, with a valid payload. -/
def validQueryTask (t : RawQueryTask) : Bool :=
  match t.getQuery, t.listQuery, t.searchQuery with
  | some g, none, none => validGetPayload g
  | none, some l, none => validListPayload l
  | none, none, some sq => validSearchPayload sq
  | _, _, _ => false

/-- Validity of the raw request payload under its single discriminator:
exactly one discriminator, with a valid payload (all sub-tasks valid for
runQueries). -/
def validApiPayload (r : RawApiRequest) : Bool :=
  match r.getQuery, r.listQuery, r.searchQuery, r.doActions,
      r.runQueries with
  | some g, none, none, none, none => validGetPayload g
  | none, some l, none, none, none => validListPayload l
  | none, none, some sq, none, none => validSearchPayload sq
  | none, none, none, some _, none => true
  | none, none, none, none, some qs => qs.all validQueryTask
  | _, _, _, _, _ => false

/-- Modelled from the spec: the Task Decoder on one runQueries sub-task
(spec 4.2) is absent from src/: exactly one of the three query
discriminators must be present and its payload must validate; any
failure is a whole-request decode error. -/
def decodeQueryTask (t : RawQueryTask) :
    Except RequestDecodeError DecodedQueryTask :=
  match t.getQuery, t.listQuery, t.searchQuery with
  | some g, none, none =>
    match decodeGetQuery g with
    | some q => .ok (.getTask q)
    | none => .error (.invalidPayload "getQuery")
  | none, some l, none =>
    match decodeListQuery l with
    | some lw => .ok (.listTask lw.1 lw.2)
    | none => .error (.invalidPayload "listQuery")
  | none, none, some sq =>
    match decodeSearchQuery sq with
    | some fs => .ok (.searchTask fs.1 fs.2)
    | none => .error (.invalidPayload "searchQuery")
  | _, _, _ => .error (.wrongDiscriminatorCount t.presentCount)

/-- Decode a list of raw runQueries sub-tasks, propagating the first
failure as the whole-request error. -/
def decodeQueryTasks :
    List RawQueryTask → Except RequestDecodeError (List DecodedQueryTask)
  | [] => .ok []
  | t :: ts =>
    match decodeQueryTask t with
    | .error e => .error e
    | .ok d =>
      match decodeQueryTasks ts with
      | .error e => .error e
      | .ok ds => .ok (d :: ds)

/-- Modelled from the spec: the Task Decoder (spec 4.2) is absent from
src/: it accepts exactly one discriminator among getQuery, listQuery,
searchQuery, doActions and runQueries, validates the payload against the
schema registered for that discriminator, produces one strongly-typed
task on success, and a whole-request decode error — never a partial
task — on any failure. -/
def decodeApiRequest (r : RawApiRequest) :
    Except RequestDecodeError DecodedApiTask :=
  match r.getQuery, r.listQuery, r.searchQuery, r.doActions,
      r.runQueries with
  | some g, none, none, none, none =>
    match decodeGetQuery g with
    | some q => .ok (.getTask q)
    | none => .error (.invalidPayload "getQuery")
  | none, some l, none, none, none =>
    match decodeListQuery l with
    | some lw => .ok (.listTask lw.1 lw.2)
    | none => .error (.invalidPayload "listQuery")
  | none, none, some sq, none, none =>
    match decodeSearchQuery sq with
    | some fs => .ok (.searchTask fs.1 fs.2)
    | none => .error (.invalidPayload "searchQuery")
  | none, none, none, some as, none => .ok (.doTask as)
  | none, none, none, none, some qs =>
    match decodeQueryTasks qs with
    | .ok ds => .ok (.runQueriesTask ds)
    | .error e => .error e
  | _, _, _, _, _ => .error (.wrongDiscriminatorCount r.presentCount)

/-- Whether decoding produced a task. -/
def decodeSucceeds (r : RawApiRequest) : Bool :=
  match decodeApiRequest r with
  | .ok _ => true
  | .error _ => false

/-- The decoded task variant agrees with the raw discriminator that was
present. -/
def discriminatorMatches (r : RawApiRequest) : DecodedApiTask → Bool
  | .getTask _ => r.getQuery.isSome
  | .listTask _ _ => r.listQuery.isSome
  | .searchTask _ _ => r.searchQuery.isSome
  | .doTask _ => r.doActions.isSome
  | .runQueriesTask _ => r.runQueries.isSome

theorem decodeGetQuery_isSome (g : RawGetQuery) :
    (decodeGetQuery g).isSome = validGetPayload g := by
  rw [decodeGetQuery, validGetPayload]
  cases h : parseFindWhat g.getWhat with
  | none => rfl
  | some fw => cases fw <;> rfl

theorem decodeListQuery_isSome (l : RawListQuery) :
    (decodeListQuery l).isSome = validListPayload l := by
  rw [decodeListQuery, validListPayload]
  cases h : parseFindWhat l.listWhat with
  | none => rfl
  | some fw =>
    cases l.sortOrder with
    | none => rfl
    | some so =>
      by_cases hc : so ∈ legalSortOrders fw <;> simp [hc]

theorem decodeSearchQuery_isSome (sq : RawSearchQuery) :
    (decodeSearchQuery sq).isSome = validSearchPayload sq := by
  rw [decodeSearchQuery, validSearchPayload]
  cases sq.findWhat with
  | none => rfl
  | some fwStr =>
    cases h : parseFindWhat fwStr <;> simp [h]

theorem decodeQueryTask_ok_iff (t : RawQueryTask) :
    (∃ d, decodeQueryTask t = .ok d) ↔
      (t.presentCount = 1 ∧ validQueryTask t = true) := by
  obtain ⟨g, l, sq⟩ := t
  cases g <;> cases l <;> cases sq <;>
    simp [decodeQueryTask, RawQueryTask.presentCount, validQueryTask]
  case none.none.some sq =>
    rw [← decodeSearchQuery_isSome]
    cases decodeSearchQuery sq <;> simp
  case none.some.none l =>
    rw [← decodeListQuery_isSome]
    cases decodeListQuery l <;> simp
  case some.none.none g =>
    rw [← decodeGetQuery_isSome]
    cases decodeGetQuery g <;> simp

theorem validQueryTask_presentCount (t : RawQueryTask)
    (hv : validQueryTask t = true) : t.presentCount = 1 := by
  obtain ⟨g, l, sq⟩ := t
  cases g <;> cases l <;> cases sq <;>
    simp_all [validQueryTask, RawQueryTask.presentCount]

theorem decodeQueryTasks_ok_iff (qs : List RawQueryTask) :
    (∃ ds, decodeQueryTasks qs = .ok ds) ↔ qs.all validQueryTask = true := by
  induction qs with
  | nil => simp [decodeQueryTasks]
  | cons t ts ih =>
    rw [List.all_cons, Bool.and_eq_true]
    constructor
    · rintro ⟨ds, hds⟩
      rw [decodeQueryTasks] at hds
      cases ht : decodeQueryTask t with
      | error e => rw [ht] at hds; cases hds
      | ok d =>
        rw [ht] at hds
        have h1 : validQueryTask t = true :=
          ((decodeQueryTask_ok_iff t).mp ⟨d, ht⟩).2
        cases hts : decodeQueryTasks ts with
        | error e => rw [hts] at hds; cases hds
        | ok ds2 =>
          have h2 : ts.all validQueryTask = true := ih.mp ⟨ds2, hts⟩
          exact ⟨h1, h2⟩
    · rintro ⟨hv, hall⟩
      obtain ⟨ds2, hds2⟩ := ih.mpr hall
      obtain ⟨d, hd⟩ := (decodeQueryTask_ok_iff t).mpr
        ⟨validQueryTask_presentCount t hv, hv⟩
      refine ⟨d :: ds2, ?_⟩
      rw [decodeQueryTasks, hd, hds2]

/-- Claim C4: the Task Decoder succeeds exactly when one single
discriminator among the five is present and its payload validates
against that discriminator's schema (including the kind-dependent
sortOrder rule and, for runQueries, every sub-task); the decoded task's
variant always agrees with the present discriminator (exactly one
variant populated); and whenever the discriminator count is not one the
whole request fails with a decode error and no task. -/
theorem decodeApiRequest_spec (r : RawApiRequest) :
    (decodeSucceeds r = (r.presentCount == 1 && validApiPayload r)) ∧
    (∀ t, decodeApiRequest r = .ok t → discriminatorMatches r t = true) ∧
    (r.presentCount ≠ 1 →
       decodeApiRequest r =
         .error (.wrongDiscriminatorCount r.presentCount)) := by
  obtain ⟨g, l, sq, d, q⟩ := r
  cases g <;> cases l <;> cases sq <;> cases d <;> cases q <;>
    simp [decodeSucceeds, decodeApiRequest, RawApiRequest.presentCount,
      validApiPayload, discriminatorMatches]
  case none.none.none.none.some qs =>
    constructor
    · cases hqs : decodeQueryTasks qs with
      | ok ds =>
        have := (decodeQueryTasks_ok_iff qs).mp ⟨ds, hqs⟩
        simp [this]
      | error e =>
        have : ¬ qs.all validQueryTask = true := by
          intro hall
          obtain ⟨ds, hds⟩ := (decodeQueryTasks_ok_iff qs).mpr hall
          rw [hds] at hqs
          cases hqs
        simp [Bool.not_eq_true] at this
        simp [this]
    · intro t ht
      cases hqs : decodeQueryTasks qs with
      | ok ds => rw [hqs] at ht; cases ht; rfl
      | error e => rw [hqs] at ht; cases ht
  case none.none.some.none.none sq =>
    constructor
    · rw [← decodeSearchQuery_isSome]
      cases decodeSearchQuery sq <;> simp
    · intro t ht
      cases hs : decodeSearchQuery sq with
      | none => rw [hs] at ht; cases ht
      | some fs => rw [hs] at ht; cases ht; rfl
  case none.some.none.none.none l =>
    constructor
    · rw [← decodeListQuery_isSome]
      cases decodeListQuery l <;> simp
    · intro t ht
      cases hl : decodeListQuery l with
      | none => rw [hl] at ht; cases ht
      | some lw => rw [hl] at ht; cases ht; rfl
  case some.none.none.none.none g2 =>
    constructor
    · rw [← decodeGetQuery_isSome]
      cases decodeGetQuery g2 <;> simp
    · intro t ht
      cases hg : decodeGetQuery g2 with
      | none => rw [hg] at ht; cases ht
      | some q2 => rw [hg] at ht; cases ht; rfl

/-- The source's first Get example (src lines 610-623) as a raw request
body: only the getQuery discriminator is present. -/
def sampleRawGetQuery : RawGetQuery :=
  { getWhat := "Pages",
    getRefs := ["emgurl:https://blog/a-blog-post",
                "emgurl:https://blog/another",
                "emgurl:https://blog/a-third"] }

def sampleRawRequest : RawApiRequest :=
  { getQuery := some sampleRawGetQuery,
    listQuery := none, searchQuery := none, doActions := none,
    runQueries := none }

/-- The strongly-typed task the decoder produces for the sample raw
request. -/
def sampleDecodedTask : DecodedApiTask :=
  .getTask (.pages { getRefs := ["emgurl:https://blog/a-blog-post",
                                 "emgurl:https://blog/another",
                                 "emgurl:https://blog/a-third"],
                     inclFields := none })

/-- Claim C4 witness: decoding the source's Get example populates the
getTask variant, matching its getQuery discriminator. -/
theorem decodeApiRequest_spec_witness :
    discriminatorMatches sampleRawRequest sampleDecodedTask = true :=
  (decodeApiRequest_spec sampleRawRequest).2.1 sampleDecodedTask rfl

end TalkyardApi
